import Mathlib

/-!
Shallow embedding of the Go heatshrink codec (whowechina/heatshrink):
`encoder.go` and `decoder.go`, translated function by function.
Machine integers are modelled as `Nat` with explicit wraparound where the
Go `uint8`/`uint16`/`int16` arithmetic can wrap; slice-index panics and
`log.Fatal` aborts are modelled as `Except.error`; unbounded loops carry
explicit fuel (running out of fuel is a distinct error).
-/

namespace Heatshrink

/-- 16-bit truncation, as for a Go `uint16` value. -/
def u16 (n : Nat) : Nat := n % 65536

/-- Go `uint16` subtraction with wraparound. -/
def u16sub (a b : Nat) : Nat := (a % 65536 + 65536 - b % 65536) % 65536

/-- Go `uint8` subtraction with wraparound. -/
def u8sub (a b : Nat) : Nat := (a % 256 + 256 - b % 256) % 256

/-- Cast of a nonnegative machine value to Go `int16` (two's complement). -/
def i16ofNat (n : Nat) : Int := (Int.ofNat (n % 65536 + 32768) % 65536) - 32768

/-- Wrap an integer into `int16` two's-complement range, as Go `int16` ops do. -/
def i16wrap (z : Int) : Int := (z + 32768) % 65536 - 32768

/-- Cast an `int16` value to Go `uint16`. -/
def u16ofInt (z : Int) : Nat := ((z % 65536 + 65536) % 65536).toNat

/-- Error for a Go slice-index panic (index out of range). -/
def errOOB : String := "index out of range"

/-- Error for fuel exhaustion of the model (the Go loop would keep running). -/
def errFuel : String := "out of fuel"

/-- Error for a `log.Fatal` assertion in the Go source. -/
def errAssert : String := "assertion failure"

/-- Error for dereferencing the nil codec pointer returned by a failed alloc. -/
def errNil : String := "nil codec"

/-- Checked list read: a Go `xs[i]` read, panicking when out of range. -/
def getE {α : Type} (l : List α) (i : Nat) : Except String α :=
  match l.get? i with
  | some a => Except.ok a
  | none => Except.error errOOB

/-- Overwrite `dst` starting at `off` with bytes of `src`, clamped to the
length of `dst`, as Go `copy(dst[off:], src)` (length of `dst` unchanged). -/
def listCopyAt {α : Type} (dst : List α) (off : Nat) (src : List α) : List α :=
  let n := min src.length (dst.length - off)
  dst.take off ++ src.take n ++ dst.drop (off + n)

/-- A fixed-capacity zero-initialized byte array, as Go `make([]byte, cap)`:
cell `i < cap` holds `data.getD i 0` (cells never written stay zero). -/
structure Buf where
  cap : Nat
  data : List Nat
deriving Repr, DecidableEq

/-- `len` of the Go slice. -/
def Buf.size (b : Buf) : Nat := b.cap

/-- Read `b[i]`, `none` on a Go index-out-of-range panic. -/
def Buf.read (b : Buf) (i : Nat) : Option Nat :=
  if i < b.cap then some (b.data.getD i 0) else none

/-- Go `copy(b[off:], src)`: overwrite from `off`, clamped to capacity. -/
def Buf.copyAt (b : Buf) (off : Nat) (src : List Nat) : Buf :=
  let n := min src.length (b.cap - off)
  { b with data := b.data.take off ++ List.replicate (off - b.data.length) 0 ++
      src.take n ++ b.data.drop (off + n) }

/- Encoder constants (encoder.go). -/

def HEATSHRINK_MIN_WINDOW_BITS : Nat := 4
def HEATSHRINK_MAX_WINDOW_BITS : Nat := 15
def HEATSHRINK_MIN_LOOKAHEAD_BITS : Nat := 3

def HSER_SINK_OK : Int := 0
def HSER_SINK_ERROR_MISUSE : Int := -2
def HSER_POLL_EMPTY : Int := 0
def HSER_POLL_MORE : Int := 1
def HSER_POLL_ERROR_MISUSE : Int := -2
def HSER_FINISH_DONE : Int := 0
def HSER_FINISH_MORE : Int := 1

def HSES_NOT_FULL : Nat := 0
def HSES_FILLED : Nat := 1
def HSES_SEARCH : Nat := 2
def HSES_YIELD_TAG_BIT : Nat := 3
def HSES_YIELD_LITERAL : Nat := 4
def HSES_YIELD_BR_INDEX : Nat := 5
def HSES_YIELD_BR_LENGTH : Nat := 6
def HSES_SAVE_BACKLOG : Nat := 7
def HSES_FLUSH_BITS : Nat := 8
def HSES_DONE : Nat := 9

def MATCH_NOT_FOUND : Nat := 0xffff
def HEATSHRINK_LITERAL_MARKER : Nat := 0x01
def HEATSHRINK_BACKREF_MARKER : Nat := 0x00

/-- Encoder state (struct `encoder` in encoder.go); `outbuf` collects the
bytes written to the output `bytes.Buffer`. -/
structure Enc where
  input_size : Nat
  match_scan_index : Nat
  match_length : Nat
  match_pos : Nat
  outgoing_bits : Nat
  outgoing_bits_count : Nat
  finishing : Bool
  state : Nat
  current_byte : Nat
  bit_index : Nat
  window_sz2 : Nat
  lookahead_sz2 : Nat
  search_index : List Int
  buffer : List Nat
  outbuf : List Nat
deriving Repr, DecidableEq

/-- `get_input_buffer_size`: `1 << window_sz2` as Go `uint16`. -/
def get_input_buffer_size (hse : Enc) : Nat := u16 (2 ^ hse.window_sz2)

/-- `get_input_offset` = `get_input_buffer_size`. -/
def get_input_offset (hse : Enc) : Nat := get_input_buffer_size hse

/-- `get_lookahead_size`: `1 << lookahead_sz2` as Go `uint16`. -/
def get_lookahead_size (hse : Enc) : Nat := u16 (2 ^ hse.lookahead_sz2)

/-- `is_finishing`. -/
def is_finishing (hse : Enc) : Bool := hse.finishing

/-- The encoder value produced by a successful `encoder_alloc`: the fields
written by `encoder_reset`, plus zeroed buffers of size `2 << window_sz2`. -/
def initial_encoder (window_sz2 lookahead_sz2 : Nat) : Enc :=
  { input_size := 0, match_scan_index := 0, match_length := 0,
    match_pos := 0, outgoing_bits := 0, outgoing_bits_count := 0,
    finishing := false, state := HSES_NOT_FULL, current_byte := 0,
    bit_index := 0x80, window_sz2 := window_sz2,
    lookahead_sz2 := lookahead_sz2,
    search_index := List.replicate (2 <<< window_sz2) 0,
    buffer := List.replicate (2 <<< window_sz2) 0,
    outbuf := [] }

/-- `encoder_alloc`: `nil` (here `none`) on invalid parameters, else a fresh
reset encoder. -/
def encoder_alloc (window_sz2 lookahead_sz2 : Nat) : Option Enc :=
  if window_sz2 < HEATSHRINK_MIN_WINDOW_BITS ∨
      window_sz2 > HEATSHRINK_MAX_WINDOW_BITS ∨
      lookahead_sz2 < HEATSHRINK_MIN_LOOKAHEAD_BITS ∨
      lookahead_sz2 ≥ window_sz2 then
    none
  else
    some (initial_encoder window_sz2 lookahead_sz2)

/-- `encoder_sink`: copy as much of `in_buf` as fits into the input region. -/
def encoder_sink (hse : Enc) (in_buf : List Nat) :
    Except String (Int × Nat × Enc) :=
  if is_finishing hse then Except.ok (HSER_SINK_ERROR_MISUSE, 0, hse)
  else if hse.state ≠ HSES_NOT_FULL then
    Except.ok (HSER_SINK_ERROR_MISUSE, 0, hse)
  else
    let write_offset := u16 (get_input_offset hse + hse.input_size)
    let ibs := get_input_buffer_size hse
    let rem := u16sub ibs hse.input_size
    let cp_sz := if in_buf.length < rem then in_buf.length else rem
    if write_offset > hse.buffer.length then Except.error errOOB
    else
      let hse1 := { hse with buffer := listCopyAt hse.buffer write_offset (in_buf.take cp_sz),
                             input_size := u16 (hse.input_size + cp_sz) }
      let hse2 := if cp_sz = rem then { hse1 with state := HSES_FILLED } else hse1
      Except.ok (HSER_SINK_OK, cp_sz, hse2)

/-- One pass of `do_indexing`'s loop over the data, carrying the `last`
table as a function from byte value to most recent `int16` position. -/
def indexScan : List Nat → Nat → (Nat → Int) → List Int
  | [], _, _ => []
  | v :: rest, i, last =>
      last v :: indexScan rest (i + 1) (fun b => if b = v then i16ofNat i else last b)

/-- `do_indexing`: rebuild `search_index[0 : input_offset + input_size]`. -/
def do_indexing (hse : Enc) : Except String Enc :=
  let endN := u16 (get_input_offset hse + hse.input_size)
  if endN > hse.buffer.length ∨ endN > hse.search_index.length then
    Except.error errOOB
  else
    let idx := indexScan (hse.buffer.take endN) 0 (fun _ => (-1 : Int)) ++
      hse.search_index.drop endN
    Except.ok { hse with search_index := idx }

/-- The inner comparison loop of `find_longest_match`:
`for len = 1; len < maxlen; len++ { if pospoint[len] != needlepoint[len] break }`.
`posN`/`endN` are the absolute offsets of `pospoint`/`needlepoint`.
The first argument is fuel (call with `maxlen + 1`). -/
def flm_inner (buffer : List Nat) (posN endN maxlen : Nat) :
    Nat → Nat → Except String Nat
  | 0, _ => Except.error errFuel
  | Nat.succ f, len =>
    if len < maxlen then
      match buffer.get? (posN + len), buffer.get? (endN + len) with
      | some a, some b =>
          if a ≠ b then Except.ok len
          else flm_inner buffer posN endN maxlen f (len + 1)
      | _, _ => Except.error errOOB
    else Except.ok len

/-- The chain-walking loop of `find_longest_match`. Arguments after fuel:
current `pos` (an `int16`), `match_maxlen`, `match_index`.
Returns the final `(match_maxlen, match_index)`. -/
def flm_loop (buffer : List Nat) (sidx : List Int) (start maxlen endN : Nat) :
    Nat → Int → Nat → Nat → Except String (Nat × Nat)
  | 0, _, _, _ => Except.error errFuel
  | Nat.succ f, pos, mml, midx =>
    if i16wrap (pos - i16ofNat start) ≥ 0 then
      if pos < 0 then Except.error errOOB
      else
        let posN := pos.toNat
        if posN > buffer.length then Except.error errOOB
        else
          match buffer.get? (posN + mml), buffer.get? (endN + mml) with
          | some a, some b =>
            if a ≠ b then
              match sidx.get? posN with
              | some pos' => flm_loop buffer sidx start maxlen endN f pos' mml midx
              | none => Except.error errOOB
            else
              match flm_inner buffer posN endN maxlen (maxlen + 1) 1 with
              | Except.error e => Except.error e
              | Except.ok len =>
                if len > mml then
                  if len = maxlen then Except.ok (len, u16ofInt pos)
                  else
                    match sidx.get? posN with
                    | some pos' => flm_loop buffer sidx start maxlen endN f pos' len (u16ofInt pos)
                    | none => Except.error errOOB
                else
                  match sidx.get? posN with
                  | some pos' => flm_loop buffer sidx start maxlen endN f pos' mml midx
                  | none => Except.error errOOB
          | _, _ => Except.error errOOB
    else Except.ok (mml, midx)

/-- The part of `find_longest_match` before the break-even gate: slice
`needlepoint := buffer[end:]`, read `search_index[end]`, then run the walk. -/
def flm_walk (hse : Enc) (start endN maxlen : Nat) : Except String (Nat × Nat) :=
  if endN > hse.buffer.length then Except.error errOOB
  else
    match hse.search_index.get? endN with
    | none => Except.error errOOB
    | some pos0 =>
        flm_loop hse.buffer hse.search_index start maxlen endN
          (hse.buffer.length + 2) pos0 0 MATCH_NOT_FOUND

/-- `find_longest_match`: the walk above followed by the break-even gate
`match_maxlen > break_even_point / 8`. -/
def find_longest_match (hse : Enc) (start endN maxlen : Nat) :
    Except String (Nat × Nat) :=
  match flm_walk hse start endN maxlen with
  | Except.error e => Except.error e
  | Except.ok (match_maxlen, match_index) =>
    if match_maxlen > (1 + hse.window_sz2 + hse.lookahead_sz2) / 8 then
      Except.ok (u16sub endN match_index, match_maxlen)
    else
      Except.ok (MATCH_NOT_FOUND, 0)

/-- The bit loop of `push_bits`, iterating `i` from `count - 1` down to 0. -/
def push_bits_loop : Nat → Nat → Enc → Enc
  | 0, _, hse => hse
  | Nat.succ i, bits, hse =>
    let hse1 := if bits &&& (1 <<< i) ≠ 0 then
        { hse with current_byte := hse.current_byte ||| hse.bit_index }
      else hse
    let hse2 := { hse1 with bit_index := hse1.bit_index >>> 1 }
    let hse3 := if hse2.bit_index = 0 then
        { hse2 with bit_index := 0x80, outbuf := hse2.outbuf ++ [hse2.current_byte],
                    current_byte := 0 }
      else hse2
    push_bits_loop i bits hse3

/-- `push_bits`: push `count` (max 8) bits MSB-first. -/
def push_bits (count bits : Nat) (hse : Enc) : Except String Enc :=
  if count > 8 then Except.error errAssert
  else if count = 8 ∧ hse.bit_index = 0x80 then
    Except.ok { hse with outbuf := hse.outbuf ++ [bits] }
  else Except.ok (push_bits_loop count bits hse)

/-- `add_tag_bit`. -/
def add_tag_bit (hse : Enc) (tag : Nat) : Except String Enc :=
  push_bits 1 tag hse

/-- `push_outgoing_bits`: drain up to 8 bits from the staging register;
returns the number of bits pushed. -/
def push_outgoing_bits (hse : Enc) : Except String (Nat × Enc) :=
  let count := if hse.outgoing_bits_count > 8 then 8 else hse.outgoing_bits_count
  let bits := if hse.outgoing_bits_count > 8 then
      (hse.outgoing_bits >>> (hse.outgoing_bits_count - 8)) % 256
    else hse.outgoing_bits % 256
  if count > 0 then
    match push_bits count bits hse with
    | Except.error e => Except.error e
    | Except.ok hse1 =>
        Except.ok (count, { hse1 with outgoing_bits_count := hse1.outgoing_bits_count - count })
  else Except.ok (0, hse)

/-- `push_literal_byte`: emit `buffer[input_offset + match_scan_index - 1]`. -/
def push_literal_byte (hse : Enc) : Except String Enc :=
  let processed_offset := u16sub hse.match_scan_index 1
  let input_offset := u16 (get_input_offset hse + processed_offset)
  match getE hse.buffer input_offset with
  | Except.error e => Except.error e
  | Except.ok c => push_bits 8 c hse

/-- `save_backlog`: slide the unprocessed tail down to the start of the
buffer. -/
def save_backlog (hse : Enc) : Except String Enc :=
  let input_buf_sz := get_input_buffer_size hse
  let msi := hse.match_scan_index
  let rem := u16sub input_buf_sz msi
  let k := u16sub input_buf_sz rem
  if k > hse.buffer.length then Except.error errOOB
  else
    let buffer1 := hse.buffer.drop k ++ hse.buffer.drop (hse.buffer.length - k)
    Except.ok { hse with buffer := buffer1, match_scan_index := 0,
                         input_size := u16sub hse.input_size k }

/-- `est_step_search`; `bias` is 1 when finishing and the lookahead size
otherwise, `end = input_offset + msi`, `start = end - window_length`, and
`max_possible = min(input_size - msi, lookahead)` in `uint16` arithmetic. -/
def est_step_search (hse : Enc) : Except String Enc :=
  if hse.match_scan_index >
      u16sub hse.input_size (if is_finishing hse then 1 else get_lookahead_size hse) then
    if is_finishing hse then Except.ok { hse with state := HSES_FLUSH_BITS }
    else Except.ok { hse with state := HSES_SAVE_BACKLOG }
  else
    match find_longest_match hse
        (u16sub (u16 (get_input_offset hse + hse.match_scan_index)) (get_input_buffer_size hse))
        (u16 (get_input_offset hse + hse.match_scan_index))
        (if u16sub hse.input_size hse.match_scan_index < get_lookahead_size hse then
          u16sub hse.input_size hse.match_scan_index
        else get_lookahead_size hse) with
    | Except.error e => Except.error e
    | Except.ok (match_pos, match_length) =>
      if match_pos = MATCH_NOT_FOUND then
        Except.ok { hse with match_scan_index := u16 (hse.match_scan_index + 1), match_length := 0,
                             state := HSES_YIELD_TAG_BIT }
      else if match_pos > u16 (2 ^ hse.window_sz2) then Except.error errAssert
      else
        Except.ok { hse with match_pos := match_pos, match_length := match_length,
                             state := HSES_YIELD_TAG_BIT }

/-- `est_yield_tag_bit`. -/
def est_yield_tag_bit (hse : Enc) : Except String Enc :=
  if hse.match_length = 0 then
    match add_tag_bit hse HEATSHRINK_LITERAL_MARKER with
    | Except.error e => Except.error e
    | Except.ok hse1 => Except.ok { hse1 with state := HSES_YIELD_LITERAL }
  else
    match add_tag_bit hse HEATSHRINK_BACKREF_MARKER with
    | Except.error e => Except.error e
    | Except.ok hse1 =>
        Except.ok { hse1 with outgoing_bits := u16sub hse1.match_pos 1,
                              outgoing_bits_count := hse1.window_sz2,
                              state := HSES_YIELD_BR_INDEX }

/-- `est_yield_literal`. -/
def est_yield_literal (hse : Enc) : Except String Enc :=
  match push_literal_byte hse with
  | Except.error e => Except.error e
  | Except.ok hse1 => Except.ok { hse1 with state := HSES_SEARCH }

/-- `est_yield_br_index`. -/
def est_yield_br_index (hse : Enc) : Except String Enc :=
  match push_outgoing_bits hse with
  | Except.error e => Except.error e
  | Except.ok (count, hse1) =>
    if count > 0 then Except.ok { hse1 with state := HSES_YIELD_BR_INDEX }
    else
      Except.ok { hse1 with outgoing_bits := u16sub hse1.match_length 1,
                            outgoing_bits_count := hse1.lookahead_sz2,
                            state := HSES_YIELD_BR_LENGTH }

/-- `est_yield_br_length`. -/
def est_yield_br_length (hse : Enc) : Except String Enc :=
  match push_outgoing_bits hse with
  | Except.error e => Except.error e
  | Except.ok (count, hse1) =>
    if count > 0 then Except.ok { hse1 with state := HSES_YIELD_BR_LENGTH }
    else
      Except.ok { hse1 with match_scan_index := u16 (hse1.match_scan_index + hse1.match_length),
                            match_length := 0, state := HSES_SEARCH }

/-- `est_save_backlog`. -/
def est_save_backlog (hse : Enc) : Except String Enc :=
  match save_backlog hse with
  | Except.error e => Except.error e
  | Except.ok hse1 => Except.ok { hse1 with state := HSES_NOT_FULL }

/-- `est_flush_bit_buffer`. -/
def est_flush_bit_buffer (hse : Enc) : Except String Enc :=
  if hse.bit_index = 0x80 then Except.ok { hse with state := HSES_DONE }
  else Except.ok { hse with outbuf := hse.outbuf ++ [hse.current_byte],
                            state := HSES_DONE }

/-- `encoder_poll`: run the state machine until `NOT_FULL` or `DONE`
(fuelled; the Go loop is unbounded). -/
def encoder_poll : Nat → Enc → Except String (Int × Enc)
  | 0, _ => Except.error errFuel
  | Nat.succ f, hse =>
    if hse.state = HSES_NOT_FULL then Except.ok (HSER_POLL_EMPTY, hse)
    else if hse.state = HSES_FILLED then
      match do_indexing hse with
      | Except.error e => Except.error e
      | Except.ok hse1 => encoder_poll f { hse1 with state := HSES_SEARCH }
    else if hse.state = HSES_SEARCH then
      match est_step_search hse with
      | Except.error e => Except.error e
      | Except.ok hse1 => encoder_poll f hse1
    else if hse.state = HSES_YIELD_TAG_BIT then
      match est_yield_tag_bit hse with
      | Except.error e => Except.error e
      | Except.ok hse1 => encoder_poll f hse1
    else if hse.state = HSES_YIELD_LITERAL then
      match est_yield_literal hse with
      | Except.error e => Except.error e
      | Except.ok hse1 => encoder_poll f hse1
    else if hse.state = HSES_YIELD_BR_INDEX then
      match est_yield_br_index hse with
      | Except.error e => Except.error e
      | Except.ok hse1 => encoder_poll f hse1
    else if hse.state = HSES_YIELD_BR_LENGTH then
      match est_yield_br_length hse with
      | Except.error e => Except.error e
      | Except.ok hse1 => encoder_poll f hse1
    else if hse.state = HSES_SAVE_BACKLOG then
      match est_save_backlog hse with
      | Except.error e => Except.error e
      | Except.ok hse1 => encoder_poll f hse1
    else if hse.state = HSES_FLUSH_BITS then
      match est_flush_bit_buffer hse with
      | Except.error e => Except.error e
      | Except.ok hse1 => encoder_poll f hse1
    else if hse.state = HSES_DONE then Except.ok (HSER_POLL_EMPTY, hse)
    else Except.ok (HSER_POLL_ERROR_MISUSE, hse)

/-- `encoder_finish`: latch the finishing flag, promote `NOT_FULL` to
`FILLED`, report `DONE` or `MORE`. -/
def encoder_finish (hse : Enc) : Int × Enc :=
  let hse1 := { hse with finishing := true }
  let hse2 := if hse1.state = HSES_NOT_FULL then { hse1 with state := HSES_FILLED } else hse1
  (if hse2.state = HSES_DONE then HSER_FINISH_DONE else HSER_FINISH_MORE, hse2)

/-- Poll fuel budget used by the one-shot `Compress` model; generous, so
that fuel exhaustion never masks the behaviour of the Go loop. -/
def encPollFuel (data : List Nat) : Nat := 1000 * data.length + 100000

/-- The sink/poll/finish loop of `Compress` (fuelled outer loop). -/
def compress_loop (pollFuel : Nat) :
    Nat → Enc → List Nat → Nat → Except String (List Nat)
  | 0, _, _, _ => Except.error errFuel
  | Nat.succ f, hse, data, inlen =>
    match encoder_sink hse (data.drop inlen) with
    | Except.error e => Except.error e
    | Except.ok (_, tmp, hse1) =>
      let inlen1 := inlen + tmp
      match encoder_poll pollFuel hse1 with
      | Except.error e => Except.error e
      | Except.ok (_, hse2) =>
        if inlen1 = data.length then
          let fin := encoder_finish hse2
          if fin.1 = HSER_FINISH_DONE then Except.ok fin.2.outbuf
          else compress_loop pollFuel f fin.2 data inlen1
        else compress_loop pollFuel f hse2 data inlen1

/-- One-shot `Compress` (encoder.go). A nil encoder from `encoder_alloc`
would make the Go loop dereference nil; that is an error here. -/
def Compress (window lookahead : Nat) (data : List Nat) : Except String (List Nat) :=
  match encoder_alloc window lookahead with
  | none => Except.error errNil
  | some hse => compress_loop (encPollFuel data) (data.length + 16) hse data 0

/- Decoder constants (decoder.go). -/

def HSDS_TAG_BIT : Nat := 0
def HSDS_YIELD_LITERAL : Nat := 1
def HSDS_BACKREF_INDEX_MSB : Nat := 2
def HSDS_BACKREF_INDEX_LSB : Nat := 3
def HSDS_BACKREF_COUNT_MSB : Nat := 4
def HSDS_BACKREF_COUNT_LSB : Nat := 5
def HSDS_YIELD_BACKREF : Nat := 6

def HSDR_SINK_OK : Int := 0
def HSDR_SINK_FULL : Int := 1
def HSDR_POLL_EMPTY : Int := 0
def HSDR_POLL_MORE : Int := 1
def HSDR_POLL_ERROR_UNKNOWN : Int := -2
def HSDR_FINISH_DONE : Int := 0
def HSDR_FINISH_MORE : Int := 1

def NO_BITS : Nat := 0xffff

/-- Decoder state (struct `decoder` in decoder.go); `outbuf` collects the
bytes written to the output `bytes.Buffer`. -/
structure Dec where
  input_size : Nat
  input_index : Nat
  output_count : Nat
  output_index : Nat
  head_index : Nat
  state : Nat
  current_byte : Nat
  bit_index : Nat
  window_sz2 : Nat
  lookahead_sz2 : Nat
  decbuf : List Nat
  inbuf : Buf
  outbuf : List Nat
deriving Repr, DecidableEq

/-- The decoder value produced by a successful `decoder_alloc`: the fields
written by `decoder_reset`, plus a `1 << window_sz2` window buffer and a
65535-byte input buffer. -/
def initial_decoder (window_sz2 lookahead_sz2 : Nat) : Dec :=
  { input_size := 0, input_index := 0, output_count := 0,
    output_index := 0, head_index := 0, state := HSDS_TAG_BIT,
    current_byte := 0, bit_index := 0, window_sz2 := window_sz2,
    lookahead_sz2 := lookahead_sz2,
    decbuf := List.replicate (2 ^ window_sz2) 0,
    inbuf := { cap := 65535, data := [] }, outbuf := [] }

/-- `decoder_alloc`: `nil` (here `none`) on invalid parameters, else a fresh
reset decoder. -/
def decoder_alloc (window_sz2 lookahead_sz2 : Nat) : Option Dec :=
  if window_sz2 < HEATSHRINK_MIN_WINDOW_BITS ∨
      window_sz2 > HEATSHRINK_MAX_WINDOW_BITS ∨
      lookahead_sz2 < HEATSHRINK_MIN_LOOKAHEAD_BITS ∨
      lookahead_sz2 ≥ window_sz2 then
    none
  else
    some (initial_decoder window_sz2 lookahead_sz2)

/-- `decoder_sink`: copy as much of `data` as fits into the input buffer. -/
def decoder_sink (hsd : Dec) (data : List Nat) :
    Except String (Int × Nat × Dec) :=
  let rem := u16sub (u16 hsd.inbuf.size) hsd.input_size
  if rem = 0 then Except.ok (HSDR_SINK_FULL, 0, hsd)
  else
    let size := if data.length < rem then data.length else rem
    if hsd.input_size > hsd.inbuf.size then Except.error errOOB
    else
      Except.ok (HSDR_SINK_OK, size,
        { hsd with inbuf := hsd.inbuf.copyAt hsd.input_size (data.take size),
                   input_size := u16 (hsd.input_size + size) })

/-- One bit-read step of the `get_bits` loop (`bit_index` is known nonzero). -/
def readBit (acc : Nat) (hsd : Dec) : Nat × Dec :=
  let acc1 := u16 (acc <<< 1)
  let acc2 := if hsd.current_byte &&& hsd.bit_index > 0 then acc1 ||| 1 else acc1
  (acc2, { hsd with bit_index := hsd.bit_index >>> 1 })

/-- The main loop of `get_bits`: read one bit per iteration, pulling the next
input byte when `bit_index` reaches 0. A mid-loop suspension returns
`NO_BITS` with the state mutated so far (as the Go code does). -/
def get_bits_loop : Nat → Nat → Dec → Except String (Nat × Dec)
  | 0, acc, hsd => Except.ok (acc, hsd)
  | Nat.succ n, acc, hsd =>
    if hsd.bit_index = 0 then
      if hsd.input_size = 0 then Except.ok (NO_BITS, hsd)
      else
        match hsd.inbuf.read hsd.input_index with
        | none => Except.error errOOB
        | some b =>
          let hsd1 := { hsd with current_byte := b,
                                 input_index := u16 (hsd.input_index + 1) }
          let hsd2 := if hsd1.input_index = hsd1.input_size then
              { hsd1 with input_index := 0, input_size := 0 }
            else hsd1
          let p := readBit acc { hsd2 with bit_index := 0x80 }
          get_bits_loop n p.1 p.2
    else
      let p := readBit acc hsd
      get_bits_loop n p.1 p.2

/-- `get_bits`: get `count` bits MSB-first; `NO_BITS` on more than 15 bits or
end of input. The up-front suspension compares `bit_index` with the Go
`uint8` expression `1 << (count - 1)` (which wraps for `count = 0` and
`count > 8`). -/
def get_bits (hsd : Dec) (count : Nat) : Except String (Nat × Dec) :=
  if count > 15 then Except.ok (NO_BITS, hsd)
  else if hsd.input_size = 0 ∧ hsd.bit_index < (1 <<< u8sub count 1) % 256 then
    Except.ok (NO_BITS, hsd)
  else get_bits_loop count 0 hsd

/-- `push_byte`: append one byte to the decoder output. -/
def push_byte (hsd : Dec) (b : Nat) : Dec :=
  { hsd with outbuf := hsd.outbuf ++ [b] }

/-- `dst_tag_bit`. -/
def dst_tag_bit (hsd : Dec) : Except String Dec :=
  match get_bits hsd 1 with
  | Except.error e => Except.error e
  | Except.ok (bits, hsd1) =>
    if bits = NO_BITS then Except.ok { hsd1 with state := HSDS_TAG_BIT }
    else if bits > 0 then Except.ok { hsd1 with state := HSDS_YIELD_LITERAL }
    else if hsd1.window_sz2 > 8 then
      Except.ok { hsd1 with state := HSDS_BACKREF_INDEX_MSB }
    else
      Except.ok { hsd1 with output_index := 0, state := HSDS_BACKREF_INDEX_LSB }

/-- `dst_yield_literal`. -/
def dst_yield_literal (hsd : Dec) : Except String Dec :=
  match get_bits hsd 8 with
  | Except.error e => Except.error e
  | Except.ok (bits, hsd1) =>
    if bits = NO_BITS then Except.ok { hsd1 with state := HSDS_YIELD_LITERAL }
    else
      let mask := u16sub (u16 (2 ^ hsd1.window_sz2)) 1
      let c := bits &&& 0xFF
      let i := hsd1.head_index &&& mask
      if i < hsd1.decbuf.length then
        let hsd2 := { hsd1 with decbuf := hsd1.decbuf.set i c,
                                head_index := u16 (hsd1.head_index + 1) }
        Except.ok { push_byte hsd2 c with state := HSDS_TAG_BIT }
      else Except.error errOOB

/-- `dst_backref_index_msb`. -/
def dst_backref_index_msb (hsd : Dec) : Except String Dec :=
  let bit_ct := hsd.window_sz2
  if bit_ct ≤ 8 then Except.error errAssert
  else
    match get_bits hsd (bit_ct - 8) with
    | Except.error e => Except.error e
    | Except.ok (bits, hsd1) =>
      if bits = NO_BITS then Except.ok { hsd1 with state := HSDS_BACKREF_INDEX_MSB }
      else
        Except.ok { hsd1 with output_index := u16 (bits <<< 8),
                              state := HSDS_BACKREF_INDEX_LSB }

/-- `dst_backref_index_lsb`. -/
def dst_backref_index_lsb (hsd : Dec) : Except String Dec :=
  let bit_ct := if hsd.window_sz2 > 8 then 8 else hsd.window_sz2
  match get_bits hsd bit_ct with
  | Except.error e => Except.error e
  | Except.ok (bits, hsd1) =>
    if bits = NO_BITS then Except.ok { hsd1 with state := HSDS_BACKREF_INDEX_LSB }
    else
      let oi := u16 ((hsd1.output_index ||| bits) + 1)
      let hsd2 := { hsd1 with output_index := oi, output_count := 0 }
      if hsd2.lookahead_sz2 > 8 then
        Except.ok { hsd2 with state := HSDS_BACKREF_COUNT_MSB }
      else
        Except.ok { hsd2 with state := HSDS_BACKREF_COUNT_LSB }

/-- `dst_backref_count_msb`. -/
def dst_backref_count_msb (hsd : Dec) : Except String Dec :=
  let br_bit_ct := hsd.lookahead_sz2
  if br_bit_ct ≤ 8 then Except.error errAssert
  else
    match get_bits hsd (br_bit_ct - 8) with
    | Except.error e => Except.error e
    | Except.ok (bits, hsd1) =>
      if bits = NO_BITS then Except.ok { hsd1 with state := HSDS_BACKREF_COUNT_MSB }
      else
        Except.ok { hsd1 with output_count := u16 (bits <<< 8),
                              state := HSDS_BACKREF_COUNT_LSB }

/-- `dst_backref_count_lsb`. -/
def dst_backref_count_lsb (hsd : Dec) : Except String Dec :=
  let br_bit_ct := if hsd.lookahead_sz2 > 8 then 8 else hsd.lookahead_sz2
  match get_bits hsd br_bit_ct with
  | Except.error e => Except.error e
  | Except.ok (bits, hsd1) =>
    if bits = NO_BITS then Except.ok { hsd1 with state := HSDS_BACKREF_COUNT_LSB }
    else
      let oc := u16 ((hsd1.output_count ||| bits) + 1)
      Except.ok { hsd1 with output_count := oc, state := HSDS_YIELD_BACKREF }

/-- The copy loop of `dst_yield_backref`. -/
def backref_copy : Nat → Nat → Nat → Dec → Except String Dec
  | 0, _, _, hsd => Except.ok hsd
  | Nat.succ n, mask, neg_offset, hsd =>
    match hsd.decbuf.get? (u16sub hsd.head_index neg_offset &&& mask) with
    | none => Except.error errOOB
    | some c =>
      let hsd1 := push_byte hsd c
      let i := hsd1.head_index &&& mask
      if i < hsd1.decbuf.length then
        backref_copy n mask neg_offset
          { hsd1 with decbuf := hsd1.decbuf.set i c,
                      head_index := u16 (hsd1.head_index + 1) }
      else Except.error errOOB

/-- `dst_yield_backref`. -/
def dst_yield_backref (hsd : Dec) : Except String Dec :=
  let count := hsd.output_count
  let mask := u16sub (u16 (2 ^ hsd.window_sz2)) 1
  let neg_offset := hsd.output_index
  if neg_offset > u16 (mask + 1) then Except.error errAssert
  else if count > u16 (2 ^ hsd.lookahead_sz2) then Except.error errAssert
  else
    match backref_copy count mask neg_offset hsd with
    | Except.error e => Except.error e
    | Except.ok hsd1 =>
      let hsd2 := { hsd1 with output_count := u16sub hsd1.output_count count }
      if hsd2.output_count = 0 then Except.ok { hsd2 with state := HSDS_TAG_BIT }
      else Except.ok { hsd2 with state := HSDS_YIELD_BACKREF }

/-- `decoder_poll`: run the state machine until a step leaves the state
unchanged (fuelled; the Go loop is unbounded). -/
def decoder_poll : Nat → Dec → Except String (Int × Dec)
  | 0, _ => Except.error errFuel
  | Nat.succ f, hsd =>
    let in_state := hsd.state
    let step : Except String Dec :=
      if in_state = HSDS_TAG_BIT then dst_tag_bit hsd
      else if in_state = HSDS_YIELD_LITERAL then dst_yield_literal hsd
      else if in_state = HSDS_BACKREF_INDEX_MSB then dst_backref_index_msb hsd
      else if in_state = HSDS_BACKREF_INDEX_LSB then dst_backref_index_lsb hsd
      else if in_state = HSDS_BACKREF_COUNT_MSB then dst_backref_count_msb hsd
      else if in_state = HSDS_BACKREF_COUNT_LSB then dst_backref_count_lsb hsd
      else if in_state = HSDS_YIELD_BACKREF then dst_yield_backref hsd
      else Except.error errAssert
    if in_state > HSDS_YIELD_BACKREF then Except.ok (HSDR_POLL_ERROR_UNKNOWN, hsd)
    else
      match step with
      | Except.error e => Except.error e
      | Except.ok hsd1 =>
        if hsd1.state = in_state then Except.ok (HSDR_POLL_EMPTY, hsd1)
        else decoder_poll f hsd1

/-- `decoder_finish`: `DONE` exactly in the six padding-safe states with an
empty input buffer, else `MORE`. -/
def decoder_finish (hsd : Dec) : Int :=
  match hsd.state with
  | 0 | 3 | 2 | 5 | 4 | 1 =>
      if hsd.input_size = 0 then HSDR_FINISH_DONE else HSDR_FINISH_MORE
  | _ => HSDR_FINISH_MORE

/-- Poll fuel budget used by the one-shot `Decompress` model. -/
def decPollFuel (data : List Nat) : Nat := 10000 * data.length + 100000

/-- The sink/poll/finish loop of `Decompress` (fuelled outer loop). -/
def decompress_loop (pollFuel : Nat) :
    Nat → Dec → List Nat → Nat → Except String (List Nat)
  | 0, _, _, _ => Except.error errFuel
  | Nat.succ f, hsd, data, inlen =>
    match decoder_sink hsd (data.drop inlen) with
    | Except.error e => Except.error e
    | Except.ok (_, tmp, hsd1) =>
      let inlen1 := inlen + tmp
      match decoder_poll pollFuel hsd1 with
      | Except.error e => Except.error e
      | Except.ok (_, hsd2) =>
        if inlen1 = data.length then
          if decoder_finish hsd2 = HSDR_FINISH_DONE then Except.ok hsd2.outbuf
          else decompress_loop pollFuel f hsd2 data inlen1
        else decompress_loop pollFuel f hsd2 data inlen1

/-- One-shot `Decompress` (decoder.go). -/
def Decompress (window lookahead : Nat) (data : List Nat) : Except String (List Nat) :=
  match decoder_alloc window lookahead with
  | none => Except.error errNil
  | some hsd => decompress_loop (decPollFuel data) (data.length + 16) hsd data 0

/-! Concrete states used as inputs of witnesses and counterexamples. -/

/-- The encoder state reached by `Compress 4 3 []` when `est_step_search`
first runs: a fresh `(4, 3)` encoder after `encoder_finish` and
`do_indexing`, with the poll loop having set the state to `SEARCH`.
`finishing = true`, `input_size = 0`, `match_scan_index = 0`. -/
def c3_enc : Enc :=
  { input_size := 0, match_scan_index := 0, match_length := 0, match_pos := 0,
    outgoing_bits := 0, outgoing_bits_count := 0, finishing := true,
    state := HSES_SEARCH, current_byte := 0, bit_index := 0x80,
    window_sz2 := 4, lookahead_sz2 := 3,
    search_index := [-1, 0, 1, 2, 3, 4, 5, 6, 7, 8, 9, 10, 11, 12, 13, 14] ++
      List.replicate 16 0,
    buffer := List.replicate 32 0, outbuf := [] }

/-- A tiny encoder state with a genuine length-2 match of byte 7
(`buffer = [7,7,7,7]`, chained `search_index`), for exercising
`find_longest_match` at `start = 0`, `end = 2`, `maxlen = 2`. -/
def c4w_enc : Enc :=
  { input_size := 0, match_scan_index := 0, match_length := 0, match_pos := 0,
    outgoing_bits := 0, outgoing_bits_count := 0, finishing := false,
    state := 0, current_byte := 0, bit_index := 128, window_sz2 := 4,
    lookahead_sz2 := 3, search_index := [-1, 0, 1, 2], buffer := [7, 7, 7, 7],
    outbuf := [] }

/-- A copy of the `(4, 3)` post-indexing finishing search state (independent
of `c3_enc`), used to exercise `est_step_search`. -/
def c4w_search_enc : Enc :=
  { input_size := 0, match_scan_index := 0, match_length := 0, match_pos := 0,
    outgoing_bits := 0, outgoing_bits_count := 0, finishing := true,
    state := HSES_SEARCH, current_byte := 0, bit_index := 0x80,
    window_sz2 := 4, lookahead_sz2 := 3,
    search_index := [-1, 0, 1, 2, 3, 4, 5, 6, 7, 8, 9, 10, 11, 12, 13, 14] ++
      List.replicate 16 0,
    buffer := List.replicate 32 0, outbuf := [] }

/-- The result state of `est_step_search` on `c4w_search_enc`. -/
def c4w_step_enc : Enc :=
  { c4w_search_enc with match_scan_index := 1, match_length := 0,
                        state := HSES_YIELD_TAG_BIT }

/-- A decoder state with empty input, a full residual byte
(`bit_index = 0x80`), and empty input buffer, used for the `get_bits`
suspension claim. -/
def c9_dec : Dec :=
  { input_size := 0, input_index := 0, output_count := 0, output_index := 0,
    head_index := 0, state := 0, current_byte := 0, bit_index := 0x80,
    window_sz2 := 8, lookahead_sz2 := 3, decbuf := [],
    inbuf := { cap := 65535, data := [] }, outbuf := [] }

/-! Claim theorems. -/

set_option maxRecDepth 40000 in
/-- Claim C5: compressing the single byte `"A" = 0x41` with
`window_bits = 8, lookahead_bits = 3` yields exactly the two bytes
`0xA0 0x80` (tag bit 1, the 8 bits of 0x41, then 7 zero padding bits,
packed MSB-first), and decompressing those two bytes with the same
parameters yields `"A"` again. -/
theorem c5_single_byte_golden :
    Compress 8 3 [0x41] = Except.ok [0xA0, 0x80] ∧
    Decompress 8 3 [0xA0, 0x80] = Except.ok [0x41] := ⟨rfl, rfl⟩

set_option maxRecDepth 40000 in
/-- Claim C2 (code bug): decompressing the empty byte string returns the
empty byte string, but compressing the empty byte string does not return
the empty byte string: the finishing `SEARCH` step computes
`input_size - bias = 0 - 1` with Go `uint16` wraparound, so the
scan-exhaustion check never fires and the encoder runs past the end of
`search_index` (a runtime index-out-of-range panic, here `errOOB`).
Shown for the valid parameter pair `(4, 3)`. -/
theorem c2_empty_input_compress_panics :
    Compress 4 3 [] = Except.error errOOB ∧
    Decompress 4 3 [] = Except.ok [] := ⟨rfl, rfl⟩

set_option maxRecDepth 40000 in
/-- Claim C1 (code bug): the round-trip property fails at the empty string
for the valid parameter pair `(4, 3)`: `Compress` aborts with an
index-out-of-range panic (see `c2_empty_input_compress_panics`), so
`Decompress (Compress s)` is an error rather than `s = []`. -/
theorem c1_roundtrip_fails_on_empty :
    (Compress 4 3 []).bind (fun c => Decompress 4 3 c) = Except.error errOOB :=
  rfl

set_option maxRecDepth 40000 in
/-- Claim C10 (code bug): the host drive sequence "finish, then poll" on a
fresh `(4, 3)` encoder (the drive `Compress` performs for empty input)
makes the encoder read `search_index[2 * W]`, one past the end of the
length-`2 * W` array: the poll aborts with an index-out-of-range panic. -/
theorem c10_poll_reads_out_of_bounds :
    (encoder_alloc 4 3).map (fun e => encoder_poll 100000 (encoder_finish e).2)
      = some (Except.error errOOB) := rfl

set_option maxRecDepth 40000 in
/-- Claim C3 (code bug): in the encoder's `SEARCH` step, when finishing with
`input_size = 0` and `match_scan_index = 0`, the claimed transition to
`FLUSH_BITS` does not happen: `0 > 0 - 1` is false under Go `uint16`
wraparound (`0 - 1 = 0xFFFF`), so the encoder instead performs a match
search and moves to `YIELD_TAG_BIT`. The state `c3_enc` is exactly the one
`Compress 4 3 []` reaches (first conjunct), its fields satisfy the claim's
hypotheses (middle conjuncts), yet the step yields `YIELD_TAG_BIT`, not
`FLUSH_BITS` (last conjuncts). -/
theorem c3_finishing_empty_input_not_flushed :
    (encoder_alloc 4 3).map (fun e => do_indexing (encoder_finish e).2)
        = some (Except.ok { c3_enc with state := HSES_FILLED }) ∧
    c3_enc.finishing = true ∧ c3_enc.input_size = 0 ∧
    c3_enc.match_scan_index = 0 ∧
    (est_step_search c3_enc).map Enc.state = Except.ok HSES_YIELD_TAG_BIT ∧
    HSES_YIELD_TAG_BIT ≠ HSES_FLUSH_BITS :=
  ⟨rfl, rfl, rfl, rfl, rfl, by decide⟩

/-- Helper for C4: whenever `find_longest_match` reports a found match
(first component not `MATCH_NOT_FOUND`), the returned length beats the
break-even quotient `(1 + window_bits + lookahead_bits) / 8`. -/
theorem flm_found_gt (hse : Enc) (start endN maxlen p len : Nat)
    (h : find_longest_match hse start endN maxlen = Except.ok (p, len))
    (hp : p ≠ MATCH_NOT_FOUND) :
    len > (1 + hse.window_sz2 + hse.lookahead_sz2) / 8 := by
  unfold find_longest_match at h
  cases hw : flm_walk hse start endN maxlen with
  | error e => rw [hw] at h; exact absurd h (by simp)
  | ok q =>
    obtain ⟨mml, midx⟩ := q
    rw [hw] at h
    dsimp only at h
    by_cases hg : mml > (1 + hse.window_sz2 + hse.lookahead_sz2) / 8
    · rw [if_pos hg] at h
      simp only [Except.ok.injEq, Prod.mk.injEq] at h
      obtain ⟨h1, h2⟩ := h
      omega
    · rw [if_neg hg] at h
      simp only [Except.ok.injEq, Prod.mk.injEq] at h
      exact absurd h.1.symm hp

/-- Helper for C4: whenever the chain walk's best candidate length does not
strictly beat the break-even quotient, `find_longest_match` returns
`MATCH_NOT_FOUND` (with length 0). -/
theorem flm_reject (hse : Enc) (start endN maxlen mml midx : Nat)
    (hw : flm_walk hse start endN maxlen = Except.ok (mml, midx))
    (hg : mml ≤ (1 + hse.window_sz2 + hse.lookahead_sz2) / 8) :
    find_longest_match hse start endN maxlen = Except.ok (MATCH_NOT_FOUND, 0) := by
  unfold find_longest_match
  rw [hw]
  dsimp only
  rw [if_neg (by omega)]

/-- Helper for C4: any `SEARCH` step that moves to `YIELD_TAG_BIT` leaves
`match_length` either 0 (literal path) or above the break-even quotient
(back-reference path), so every emitted back-reference beats break-even. -/
theorem step_search_break_even (hse hse1 : Enc)
    (h : est_step_search hse = Except.ok hse1)
    (hs : hse1.state = HSES_YIELD_TAG_BIT) :
    hse1.match_length = 0 ∨
      hse1.match_length > (1 + hse1.window_sz2 + hse1.lookahead_sz2) / 8 := by
  unfold est_step_search at h
  split at h <;>
  · split at h
    · simp only [Except.ok.injEq] at h
      subst h
      simp [HSES_FLUSH_BITS, HSES_SAVE_BACKLOG, HSES_YIELD_TAG_BIT] at hs
    · cases hf : find_longest_match hse
          (u16sub (u16 (get_input_offset hse + hse.match_scan_index)) (get_input_buffer_size hse))
          (u16 (get_input_offset hse + hse.match_scan_index))
          (if u16sub hse.input_size hse.match_scan_index < get_lookahead_size hse then
            u16sub hse.input_size hse.match_scan_index
          else get_lookahead_size hse) with
      | error e => rw [hf] at h; exact absurd h (by simp)
      | ok q =>
        obtain ⟨mpos, mlen⟩ := q
        rw [hf] at h
        dsimp only at h
        by_cases hnf : mpos = MATCH_NOT_FOUND
        · rw [if_pos hnf] at h
          simp only [Except.ok.injEq] at h
          subst h
          left
          rfl
        · rw [if_neg hnf] at h
          split at h
          · exact absurd h (by simp)
          · simp only [Except.ok.injEq] at h
            subst h
            right
            exact flm_found_gt hse _ _ _ mpos mlen hf hnf

/-- Claim C4: break-even policy. (1) Every found match returned by
`find_longest_match` has length strictly greater than
`(1 + window_bits + lookahead_bits) / 8` (integer division); (2)
`find_longest_match` returns `MATCH_NOT_FOUND` whenever the walk's best
candidate length is not strictly greater than that quotient; (3) hence any
`SEARCH` step entering the emission path (`YIELD_TAG_BIT`) carries either
`match_length = 0` (a literal) or a `match_length` above break-even, so
every emitted back-reference beats break-even. -/
theorem c4_break_even_policy :
    (∀ (hse : Enc) (start endN maxlen p len : Nat),
        find_longest_match hse start endN maxlen = Except.ok (p, len) →
        p ≠ MATCH_NOT_FOUND →
        len > (1 + hse.window_sz2 + hse.lookahead_sz2) / 8) ∧
    (∀ (hse : Enc) (start endN maxlen mml midx : Nat),
        flm_walk hse start endN maxlen = Except.ok (mml, midx) →
        mml ≤ (1 + hse.window_sz2 + hse.lookahead_sz2) / 8 →
        find_longest_match hse start endN maxlen = Except.ok (MATCH_NOT_FOUND, 0)) ∧
    (∀ hse hse1 : Enc,
        est_step_search hse = Except.ok hse1 →
        hse1.state = HSES_YIELD_TAG_BIT →
        hse1.match_length = 0 ∨
          hse1.match_length > (1 + hse1.window_sz2 + hse1.lookahead_sz2) / 8) :=
  ⟨flm_found_gt, flm_reject, step_search_break_even⟩

/-- Witness for C4: its three parts instantiated on the concrete states
`c4w_enc` (a found length-2 match and an empty walk) and `c4w_search_enc`
(a search step that reaches `YIELD_TAG_BIT`). -/
theorem c4_break_even_policy_witness :
    2 > (1 + c4w_enc.window_sz2 + c4w_enc.lookahead_sz2) / 8 ∧
    find_longest_match c4w_enc 0 0 0 = Except.ok (MATCH_NOT_FOUND, 0) ∧
    (c4w_step_enc.match_length = 0 ∨
      c4w_step_enc.match_length >
        (1 + c4w_step_enc.window_sz2 + c4w_step_enc.lookahead_sz2) / 8) :=
  ⟨c4_break_even_policy.1 c4w_enc 0 2 2 1 2 rfl (by decide),
   c4_break_even_policy.2.1 c4w_enc 0 0 0 0 65535 rfl (by decide),
   c4_break_even_policy.2.2 c4w_search_enc c4w_step_enc rfl rfl⟩

/-- Claim C7: `decoder_finish` returns `DONE` if and only if the state is
one of `TAG_BIT`, `BACKREF_INDEX_MSB`, `BACKREF_INDEX_LSB`,
`BACKREF_COUNT_MSB`, `BACKREF_COUNT_LSB`, `YIELD_LITERAL` and
`input_size = 0`; in every other case (notably `YIELD_BACKREF`, whatever
`input_size` is) it returns `MORE`. -/
theorem c7_decoder_finish_iff : ∀ hsd : Dec,
    decoder_finish hsd = HSDR_FINISH_DONE ↔
      ((hsd.state = HSDS_TAG_BIT ∨ hsd.state = HSDS_BACKREF_INDEX_MSB ∨
        hsd.state = HSDS_BACKREF_INDEX_LSB ∨ hsd.state = HSDS_BACKREF_COUNT_MSB ∨
        hsd.state = HSDS_BACKREF_COUNT_LSB ∨ hsd.state = HSDS_YIELD_LITERAL) ∧
        hsd.input_size = 0) := by
  intro hsd
  rcases hsd with ⟨is, ii, oc, oi, hi, st, cb, bi, w, l, db, ib, ob⟩
  simp only [decoder_finish, HSDR_FINISH_DONE, HSDR_FINISH_MORE, HSDS_TAG_BIT,
    HSDS_BACKREF_INDEX_MSB, HSDS_BACKREF_INDEX_LSB, HSDS_BACKREF_COUNT_MSB,
    HSDS_BACKREF_COUNT_LSB, HSDS_YIELD_LITERAL]
  rcases st with _|_|_|_|_|_|st <;>
    by_cases h2 : is = 0 <;> simp [h2]

/-- Claim C8: both constructors return `nil` exactly when
`window_bits < 4`, `window_bits > 15`, `lookahead_bits < 3`, or
`lookahead_bits ≥ window_bits`; inside the bounds they return codecs in
their initial states (all scalar fields reset, parameters stored, buffers
of the documented sizes, empty output). -/
theorem c8_alloc_validation : ∀ w l : Nat,
    ((encoder_alloc w l = none ↔ (w < 4 ∨ w > 15 ∨ l < 3 ∨ l ≥ w)) ∧
     (decoder_alloc w l = none ↔ (w < 4 ∨ w > 15 ∨ l < 3 ∨ l ≥ w))) ∧
    (¬(w < 4 ∨ w > 15 ∨ l < 3 ∨ l ≥ w) →
      ∃ e d, encoder_alloc w l = some e ∧ decoder_alloc w l = some d ∧
        e.state = HSES_NOT_FULL ∧ e.input_size = 0 ∧ e.finishing = false ∧
        e.match_scan_index = 0 ∧ e.match_length = 0 ∧ e.outgoing_bits = 0 ∧
        e.outgoing_bits_count = 0 ∧ e.current_byte = 0 ∧ e.bit_index = 0x80 ∧
        e.window_sz2 = w ∧ e.lookahead_sz2 = l ∧
        e.buffer.length = 2 * 2 ^ w ∧ e.search_index.length = 2 * 2 ^ w ∧
        e.outbuf = [] ∧
        d.state = HSDS_TAG_BIT ∧ d.input_size = 0 ∧ d.input_index = 0 ∧
        d.bit_index = 0 ∧ d.current_byte = 0 ∧ d.output_count = 0 ∧
        d.output_index = 0 ∧ d.head_index = 0 ∧ d.window_sz2 = w ∧
        d.lookahead_sz2 = l ∧ d.decbuf.length = 2 ^ w ∧ d.inbuf.size = 65535 ∧
        d.outbuf = []) := by
  intro w l
  constructor
  · constructor <;>
      · simp only [encoder_alloc, decoder_alloc, HEATSHRINK_MIN_WINDOW_BITS,
          HEATSHRINK_MAX_WINDOW_BITS, HEATSHRINK_MIN_LOOKAHEAD_BITS]
        split <;> simp_all
  · intro h
    refine ⟨initial_encoder w l, initial_decoder w l, ?_, ?_, ?_⟩
    · simp only [encoder_alloc, HEATSHRINK_MIN_WINDOW_BITS,
        HEATSHRINK_MAX_WINDOW_BITS, HEATSHRINK_MIN_LOOKAHEAD_BITS]
      rw [if_neg (by omega)]
    · simp only [decoder_alloc, HEATSHRINK_MIN_WINDOW_BITS,
        HEATSHRINK_MAX_WINDOW_BITS, HEATSHRINK_MIN_LOOKAHEAD_BITS]
      rw [if_neg (by omega)]
    · simp [initial_encoder, initial_decoder, HSES_NOT_FULL, HSDS_TAG_BIT,
        Nat.shiftLeft_eq, Buf.size, Nat.mul_comm]

/-- Helper for C9: the bit-read loop of `get_bits` completes (without
pulling input or returning the sentinel) whenever the residual bit mask
holds at least `n` bits, i.e. `2 ^ n ≤ 2 * bit_index + 1`, and the
accumulator stays below `2 ^ (m + n)`. -/
theorem get_bits_loop_total : ∀ (n acc : Nat) (hsd : Dec) (m : Nat),
    2 ^ n ≤ 2 * hsd.bit_index + 1 →
    acc < 2 ^ m →
    m + n ≤ 16 →
    ∃ acc2 hsd2, get_bits_loop n acc hsd = Except.ok (acc2, hsd2) ∧
      acc2 < 2 ^ (m + n) := by
  intro n
  induction n with
  | zero =>
    intro acc hsd m hbi hacc hm
    exact ⟨acc, hsd, rfl, by simpa using hacc⟩
  | succ n ih =>
    intro acc hsd m hbi hacc hm
    have hpow : 2 ^ (n + 1) = 2 * 2 ^ n := by rw [Nat.pow_succ, Nat.mul_comm]
    have hbi0 : hsd.bit_index ≠ 0 := by
      intro h0
      rw [h0] at hbi
      rw [hpow] at hbi
      have : 1 ≤ 2 ^ n := Nat.one_le_two_pow
      omega
    have hge : 2 ^ n ≤ hsd.bit_index := by
      rw [hpow] at hbi
      omega
    unfold get_bits_loop
    rw [if_neg hbi0]
    have hacc2 : 2 * acc < 2 ^ (m + 1) := by
      rw [Nat.pow_succ]
      omega
    have hmod : u16 (acc <<< 1) = 2 * acc := by
      have h1 : acc <<< 1 = acc * 2 := Nat.shiftLeft_eq acc 1 ▸ by ring_nf
      have h2 : 2 * acc < 65536 := by
        have : 2 ^ (m + 1) ≤ 2 ^ 16 := Nat.pow_le_pow_right (by omega) (by omega)
        calc 2 * acc < 2 ^ (m + 1) := hacc2
          _ ≤ 2 ^ 16 := this
      unfold u16
      omega
    have hread1 : (readBit acc hsd).1 < 2 ^ (m + 1) := by
      unfold readBit
      dsimp only
      split
      · rw [hmod]
        exact Nat.or_lt_two_pow hacc2 (Nat.one_lt_two_pow_iff.2 (by omega))
      · rw [hmod]
        exact hacc2
    have hread2 : 2 ^ n ≤ 2 * (readBit acc hsd).2.bit_index + 1 := by
      unfold readBit
      dsimp only
      have : hsd.bit_index >>> 1 = hsd.bit_index / 2 := Nat.shiftRight_one _
      rw [this]
      omega
    obtain ⟨acc2, hsd2, hrun, hbound⟩ :=
      ih (readBit acc hsd).1 (readBit acc hsd).2 (m + 1) hread2 hread1 (by omega)
    refine ⟨acc2, hsd2, ?_, ?_⟩
    · rw [hrun]
    · have : m + 1 + n = m + (n + 1) := by omega
      rw [this] at hbound
      exact hbound

/-- Counterexample for C9 as stated: at the state `c9_dec` (empty input
buffer, `bit_index = 0x80`) with `count = 9`, the residual mask is below
`1 << (count - 1) = 256`, so the claim says `get_bits` returns the sentinel
without consuming any bits; but the Go code compares against the `uint8`
expression `1 << (count - 1)` which wraps to 0, skips the up-front
suspension, consumes the 8 residual bits (`bit_index` becomes 0) and only
then returns the sentinel. Hence the claimed equivalence fails at this
input. -/
theorem c9_counterexample_count9 :
    ¬((get_bits c9_dec 9 = Except.ok (NO_BITS, c9_dec)) ↔
      c9_dec.bit_index < 2 ^ (9 - 1)) := by
  intro hiff
  have h := hiff.mpr (by decide)
  have hval : get_bits c9_dec 9 =
      Except.ok (NO_BITS, { c9_dec with bit_index := 0 }) := rfl
  rw [hval] at h
  simp only [Except.ok.injEq, Prod.mk.injEq] at h
  have h2 := congrArg Dec.bit_index h.2
  simp [c9_dec] at h2

/-- Claim C9 as amended: `get_bits count` returns the no-bits sentinel
(leaving the state unchanged) whenever `count > 15`; and for
`1 ≤ count ≤ 8` (the only widths the decoder requests), when the input
buffer is empty, it returns the sentinel without consuming any bits if and
only if `bit_index < 1 << (count - 1)`, i.e. exactly when the residual bits
of the current byte cannot contain `count` bits. (For `9 ≤ count ≤ 15`
with a nonzero residual mask the code instead consumes the residual bits
before suspending; see `c9_counterexample_count9`.) -/
theorem c9_get_bits_suspension : ∀ (hsd : Dec) (count : Nat),
    (count > 15 → get_bits hsd count = Except.ok (NO_BITS, hsd)) ∧
    (1 ≤ count → count ≤ 8 → hsd.input_size = 0 →
      (get_bits hsd count = Except.ok (NO_BITS, hsd) ↔
        hsd.bit_index < 2 ^ (count - 1))) := by
  intro hsd count
  constructor
  · intro hc
    unfold get_bits
    rw [if_pos hc]
  · intro h1 h8 hin
    have hmask : (1 <<< u8sub count 1) % 256 = 2 ^ (count - 1) := by
      interval_cases count <;> decide
    constructor
    · intro heq
      by_contra hlt
      push_neg at hlt
      have hbi : 2 ^ count ≤ 2 * hsd.bit_index + 1 := by
        have hc : count - 1 + 1 = count := by omega
        have h2 : 2 ^ count = 2 * 2 ^ (count - 1) := by
          calc 2 ^ count = 2 ^ (count - 1 + 1) := by rw [hc]
            _ = 2 * 2 ^ (count - 1) := by rw [Nat.pow_succ, Nat.mul_comm]
        omega
      obtain ⟨acc2, hsd2, hrun, hbound⟩ :=
        get_bits_loop_total count 0 hsd 0 hbi (by simp) (by omega)
      have hsmall : acc2 < 65535 := by
        have h2 : 2 ^ (0 + count) ≤ 2 ^ 8 := Nat.pow_le_pow_right (by omega) (by omega)
        omega
      unfold get_bits at heq
      rw [if_neg (by omega)] at heq
      rw [if_neg (by rw [hmask]; intro hconj; omega)] at heq
      rw [hrun] at heq
      simp only [Except.ok.injEq, Prod.mk.injEq] at heq
      have : acc2 = NO_BITS := heq.1
      unfold NO_BITS at this
      omega
    · intro hlt
      unfold get_bits
      rw [if_neg (by omega)]
      rw [if_pos (by rw [hmask]; exact ⟨hin, hlt⟩)]

/-- Witness for C9 (amended): both parts instantiated at the concrete state
`c9_dec`, for `count = 16` and `count = 1`. -/
theorem c9_get_bits_suspension_witness :
    get_bits c9_dec 16 = Except.ok (NO_BITS, c9_dec) ∧
    (get_bits c9_dec 1 = Except.ok (NO_BITS, c9_dec) ↔
      c9_dec.bit_index < 2 ^ (1 - 1)) :=
  ⟨(c9_get_bits_suspension c9_dec 16).1 (by decide),
   (c9_get_bits_suspension c9_dec 1).2 (by decide) (by decide) rfl⟩

/-- Witness for C8: the in-bounds pair `(8, 3)` yields non-null codecs in
their initial states. -/
theorem c8_alloc_validation_witness :
    ∃ e d, encoder_alloc 8 3 = some e ∧ decoder_alloc 8 3 = some d ∧
      e.state = HSES_NOT_FULL ∧ e.input_size = 0 ∧ e.finishing = false ∧
      e.match_scan_index = 0 ∧ e.match_length = 0 ∧ e.outgoing_bits = 0 ∧
      e.outgoing_bits_count = 0 ∧ e.current_byte = 0 ∧ e.bit_index = 0x80 ∧
      e.window_sz2 = 8 ∧ e.lookahead_sz2 = 3 ∧
      e.buffer.length = 2 * 2 ^ 8 ∧ e.search_index.length = 2 * 2 ^ 8 ∧
      e.outbuf = [] ∧
      d.state = HSDS_TAG_BIT ∧ d.input_size = 0 ∧ d.input_index = 0 ∧
      d.bit_index = 0 ∧ d.current_byte = 0 ∧ d.output_count = 0 ∧
      d.output_index = 0 ∧ d.head_index = 0 ∧ d.window_sz2 = 8 ∧
      d.lookahead_sz2 = 3 ∧ d.decbuf.length = 2 ^ 8 ∧ d.inbuf.size = 65535 ∧
      d.outbuf = [] :=
  (c8_alloc_validation 8 3).2 (by decide)

end Heatshrink
